import Mathlib

/-!
Authentication and authorization core of `server.js`.

A shallow embedding of the identity layer of the Express server in
`src/server.js`: the two middlewares (`authMiddleware`, `requireRole`), the
bootstrap procedure `ensureAdminUser`, and the handlers of `POST /auth/login`,
`POST /users` and `DELETE /users/:id`.

JavaScript values are embedded as the type `Json`.  The collaborators that the
server only calls (`pool.query`, `bcrypt`, `jsonwebtoken`, `process.env`, the
clock) are fields of an environment record `Env`; every collaborator call made
by a handler is appended to a call log, so that statements such as "the store
is not touched" are statements about the log and the threaded store state.
-/

namespace Custos

/-! ## JavaScript values -/

/-- JavaScript values that flow through the server.  A number is a double:
`num n` is the integer `n`, `frac m k` is the value `m / 2 ^ k`, `inf` is an
infinity and `nan` is not-a-number.  Negative zero is identified with zero,
which `===`, truthiness and `includes` do not tell apart.  Objects are
association lists from property names to values. -/
inductive Json where
  | undefined
  | null
  | bool (b : Bool)
  | num (n : Int)
  | frac (m : Int) (k : Nat)
  | inf (negative : Bool)
  | nan
  | str (s : String)
  | obj (kvs : List (String × Json))

namespace Json

/-- JavaScript truthiness (`ToBoolean`), the test behind `!x` and `x || y`. -/
def truthy : Json → Bool
  | undefined => false
  | null => false
  | bool b => b
  | num n => n != 0
  | frac m _ => m != 0
  | inf _ => true
  | nan => false
  | str s => s != ""
  | obj _ => true

/-- Whether the value is `undefined` or `null`.  Reading a property of such a
value, or destructuring it, throws a `TypeError`. -/
def isNullish : Json → Bool
  | undefined => true
  | null => true
  | _ => false

/-- Whether the value is a number other than not-a-number. -/
def isNumber : Json → Bool
  | num _ => true
  | frac _ _ => true
  | inf _ => true
  | _ => false

/-- Property read `v.k` on a receiver that is not nullish: the value stored
under `k` in an object, `undefined` when the key is absent or the receiver is
a primitive.  On a nullish receiver the read throws instead; the handlers test
`isNullish` before they read `req.body` and `req.user`, and the rows of a
query result are objects. -/
def get (v : Json) (k : String) : Json :=
  match v with
  | obj kvs => (kvs.lookup k).getD undefined
  | _ => undefined

/-- Strict equality `a === b`.  Numbers are compared by value, and
not-a-number equals nothing.  Two object operands are equal only when they are
the same reference; the operands compared by the server are always distinct
allocations, so objects compare unequal. -/
def strictEq : Json → Json → Bool
  | undefined, undefined => true
  | null, null => true
  | bool a, bool b => a == b
  | num a, num b => a == b
  | num a, frac m k => a * 2 ^ k == m
  | frac m k, num b => m == b * 2 ^ k
  | frac m k, frac n l => m * 2 ^ l == n * 2 ^ k
  | inf a, inf b => a == b
  | str a, str b => a == b
  | _, _ => false

/-- The comparison `SameValueZero` used by `Array.prototype.includes`: strict
equality, except that not-a-number equals itself. -/
def sameValueZero : Json → Json → Bool
  | nan, nan => true
  | a, b => strictEq a b

/-- Membership test `xs.includes(v)`. -/
def includes (xs : List Json) (v : Json) : Bool :=
  xs.any fun x => sameValueZero x v

/-- The expression `a || b`. -/
def orElse (a b : Json) : Json :=
  if a.truthy then a else b

end Json

/-! ## Requests, responses and middleware outcomes -/

/-- The HTTP response written through `res.status(..).json(..)`; `res.json`
alone uses status 200 and `res.status(204).end()` has body `undefined`. -/
structure Response where
  status : Nat
  body : Json

/-- The body `\x7b error: msg \x7d` of every error response. -/
def errorBody (msg : String) : Json :=
  .obj [("error", .str msg)]

/-- The parts of the Express request object that the server reads or writes. -/
structure Req where
  /-- The header `req.headers.authorization`, absent when not sent. -/
  authorization : Option String
  /-- The property `req.user`, `undefined` until a middleware assigns it. -/
  user : Json
  /-- The parsed JSON body `req.body`. -/
  body : Json
  /-- The path parameter `req.params.id`. -/
  paramsId : String

/-- What a middleware did: the request as it leaves the middleware, the
response it wrote (if any) and how many times it called `next`. -/
structure MwResult where
  req : Req
  response : Option Response
  nextCalls : Nat

/-- The effect of `return res.status(status).json(\x7b error: msg \x7d)`. -/
def reject (req : Req) (status : Nat) (msg : String) : MwResult :=
  { req := req, response := some { status := status, body := errorBody msg }, nextCalls := 0 }

/-- The effect of `next()`. -/
def callNext (req : Req) : MwResult :=
  { req := req, response := none, nextCalls := 1 }

/-! ## Collaborators -/

/-- An error value thrown by a collaborator; `code` is the property read by
`err.code` (`undefined` when the error carries none). -/
structure JsError where
  message : String
  code : Json

/-- The SQL statements that the identity layer sends through `pool.query`. -/
inductive Sql where
  /-- The text `SELECT COUNT(*) FROM users`. -/
  | countUsers
  /-- The text `INSERT INTO users (username, password_hash, role) VALUES ($1, $2, $3)`. -/
  | insertUser
  /-- The text `SELECT id, username, password_hash, role FROM users WHERE username = $1`. -/
  | selectByUsername
  /-- The text `INSERT INTO users (username, password_hash, role) VALUES ($1, $2, $3) RETURNING id, username, role`. -/
  | insertUserReturning
  /-- The text `DELETE FROM users WHERE id = $1`. -/
  | deleteById
  deriving DecidableEq

/-- The result object of `pool.query`: `rowCount` and the array `rows`.  The
driver builds every row as an object. -/
structure QueryResult where
  rowCount : Nat
  rows : List Json

/-- The collaborators of the server.  `σ` is the state of the database behind
the connection pool. -/
structure Env (σ : Type) where
  /-- The variable `process.env.JWT_SECRET`. -/
  JWT_SECRET : Option String
  /-- The clock read by the token library, in seconds. -/
  now : Nat
  /-- The call `pool.query(text, params)`: a result or a thrown error, and the
  database state it leaves. -/
  query : Sql → List Json → σ → Except JsError QueryResult × σ
  /-- The call `bcrypt.hash(data, rounds)`. -/
  bcryptHash : Json → Nat → Except JsError String
  /-- The call `bcrypt.compare(data, hash)`. -/
  bcryptCompare : Json → Json → Except JsError Bool
  /-- The call `jwt.sign(payload, secret, \x7b expiresIn \x7d)` at a clock value. -/
  jwtSign : Json → String → String → Nat → Except JsError String
  /-- The call `jwt.verify(token, secret, callback)` at a clock value: the
  error or the decoded payload handed to the callback. -/
  jwtVerify : Json → String → Nat → Except JsError Json

/-- The expression `process.env.JWT_SECRET || "segredo-super"`. -/
def jwtSecret {σ : Type} (env : Env σ) : String :=
  match env.JWT_SECRET with
  | some s => if s = "" then "segredo-super" else s
  | none => "segredo-super"

/-- A collaborator call recorded in the log of a handler run. -/
inductive Call where
  | query (sql : Sql) (params : List Json)
  | hash (data : Json) (rounds : Nat)
  | compare (data : Json) (hash : Json)
  | sign (payload : Json) (secret : String) (expiresIn : String)

/-! ## String splitting -/

/-- The segments of `s.split(" ")` on the characters of `s`: the text is cut at
every single space, empty segments included. -/
def splitSpace : List Char → List (List Char)
  | [] => [[]]
  | c :: cs =>
    if c = ' ' then [] :: splitSpace cs
    else
      match splitSpace cs with
      | [] => [[c]]
      | x :: xs => (c :: x) :: xs

/-- The expression `authHeader.split(" ")[1]`: the second segment, or
`undefined` when the header has no space. -/
def headerToken (authHeader : String) : Json :=
  match splitSpace authHeader.data with
  | _ :: t :: _ => .str (String.mk t)
  | _ => .undefined

/-! ## The two middlewares -/

/-- The function `authMiddleware` (server.js, lines 21-32). -/
def authMiddleware {σ : Type} (env : Env σ) (req : Req) : MwResult :=
  match req.authorization with
  | none => reject req 401 "Token não informado"
  | some authHeader =>
    if authHeader = "" then reject req 401 "Token não informado"
    else
      let token := headerToken authHeader
      match env.jwtVerify token (jwtSecret env) env.now with
      | .error _ => reject req 403 "Token inválido"
      | .ok user => callNext { req with user := user }

/-- The middleware returned by `requireRole(roles)` (server.js, lines 35-46).
The call `requireRole()` takes the default argument and is `requireRole []`. -/
def requireRole (roles : List Json) (req : Req) : MwResult :=
  if !req.user.truthy then reject req 401 "Não autenticado"
  else if !Json.includes roles (req.user.get "role") then reject req 403 "Permissão negada"
  else callNext req

/-! ## Numeric conversion -/

/-- The characters stripped by the string-to-number conversion
(`StrWhiteSpaceChar`): tab, line feed, vertical tab, form feed, carriage
return, space, no-break space, the space separators U+1680, U+2000 to U+200A,
U+202F, U+205F and U+3000, the line and paragraph separators U+2028 and
U+2029, and the byte order mark. -/
def isJsSpace (c : Char) : Bool :=
  [9, 10, 11, 12, 13, 32, 160, 5760, 8232, 8233, 8239, 8287, 12288, 65279].contains c.toNat
    || (8192 ≤ c.toNat && c.toNat ≤ 8202)

/-- The text with leading and trailing white space removed. -/
def trimSpace (cs : List Char) : List Char :=
  ((cs.dropWhile isJsSpace).reverse.dropWhile isJsSpace).reverse

/-- The value of a run of decimal digits, most significant first. -/
def parseDigits (cs : List Char) : Nat :=
  cs.foldl (fun acc c => acc * 10 + (c.toNat - 48)) 0

/-- Whether the text is a non-empty run of decimal digits. -/
def isDigits (cs : List Char) : Bool :=
  !cs.isEmpty && cs.all Char.isDigit

/-- The value of a digit of a radix literal: `0` to `9`, then `a` to `f` in
either case as 10 to 15; 16 for every other character. -/
def radixDigit (c : Char) : Nat :=
  if c.isDigit then c.toNat - 48
  else if 97 ≤ c.toNat ∧ c.toNat ≤ 102 then c.toNat - 87
  else if 65 ≤ c.toNat ∧ c.toNat ≤ 70 then c.toNat - 55
  else 16

/-- Whether the text is a non-empty run of digits of the radix. -/
def isRadixDigits (radix : Nat) (cs : List Char) : Bool :=
  !cs.isEmpty && cs.all fun c => radixDigit c < radix

/-- The value of a run of digits of the radix, most significant first. -/
def radixValue (radix : Nat) (cs : List Char) : Nat :=
  cs.foldl (fun acc c => acc * radix + radixDigit c) 0

/-- The worker of `floorLog2`, with the fuel bounding the halvings. -/
def log2Fuel : Nat → Nat → Nat
  | 0, _ => 0
  | fuel + 1, n => if n < 2 then 0 else log2Fuel fuel (n / 2) + 1

/-- The exponent of the greatest power of two that is at most `n`, for a
positive `n`. -/
def floorLog2 (n : Nat) : Nat :=
  log2Fuel n n

/-- The exponent of the greatest power of two that is at most `p / q`, for
positive `p` and `q`. -/
def floorLog2Ratio (p q : Nat) : Int :=
  let d : Int := (floorLog2 p : Int) - (floorLog2 q : Int)
  if q * 2 ^ d.toNat ≤ p * 2 ^ (-d).toNat then d else d - 1

/-- The integer nearest to `a / b`, a tie going to the even one. -/
def roundHalfEven (a b : Nat) : Nat :=
  let f := a / b
  let r := a % b
  if 2 * r < b then f
  else if b < 2 * r then f + 1
  else if f % 2 = 0 then f else f + 1

/-- The double nearest to the non-negative rational `p / q`, ties to even:
the value is rounded to 53 significant bits (fewer below `2 ^ -1022`, where
the spacing stays `2 ^ -1074`), and a result of `2 ^ 1024` or more is
infinity. -/
def roundDouble (p q : Nat) : Json :=
  if p = 0 then .num 0
  else
    let s : Int := max (floorLog2Ratio p q - 52) (-1074)
    let m := roundHalfEven (p * 2 ^ (-s).toNat) (q * 2 ^ s.toNat)
    if 0 ≤ s then
      if 971 < s ∨ (s = 971 ∧ 2 ^ 53 ≤ m) then .inf false
      else .num ((m * 2 ^ s.toNat : Nat) : Int)
    else
      let k := (-s).toNat
      if m % 2 ^ k = 0 then .num ((m / 2 ^ k : Nat) : Int) else .frac (m : Int) k

/-- The number with the opposite sign. -/
def negate : Json → Json
  | .num n => .num (-n)
  | .frac m k => .frac (-m) k
  | .inf b => .inf (!b)
  | v => v

/-- The value of an exponent part after its `e`: an optionally signed run of
decimal digits. -/
def parseExponent (cs : List Char) : Option Int :=
  match cs with
  | [] => none
  | c :: rest =>
    if c = '-' then (if isDigits rest then some (-(parseDigits rest : Int)) else none)
    else if c = '+' then (if isDigits rest then some (parseDigits rest : Int) else none)
    else if isDigits (c :: rest) then some (parseDigits (c :: rest) : Int)
    else none

/-- The parse of an unsigned decimal literal `digits`, `digits.digits`,
`digits.` or `.digits`, each with an optional exponent part: the pair of `m`
and `e` whose value is `m * 10 ^ e`. -/
def parseUnsignedDecimal (cs : List Char) : Option (Nat × Int) :=
  let (mantissa, exponentPart) := cs.span fun c => c != 'e' && c != 'E'
  let exponent : Option Int :=
    match exponentPart with
    | [] => some 0
    | _ :: ds => parseExponent ds
  let (whole, rest) := mantissa.span fun c => c != '.'
  let fraction : Option (List Char) :=
    match rest with
    | [] => if isDigits whole then some [] else none
    | _ :: fs =>
      if whole.all Char.isDigit && fs.all Char.isDigit && !(whole.isEmpty && fs.isEmpty)
      then some fs else none
  match exponent, fraction with
  | some e, some fs => some (parseDigits (whole ++ fs), e - (fs.length : Int))
  | _, _ => none

/-- The double of the decimal value `m * 10 ^ e`. -/
def decimalValue (m : Nat) (e : Int) : Json :=
  if 0 ≤ e then roundDouble (m * 10 ^ e.toNat) 1 else roundDouble m (10 ^ (-e).toNat)

/-- The value of an unsigned decimal literal or of `Infinity`; `nan` when the
text is neither. -/
def unsignedDecimal (cs : List Char) : Json :=
  if cs = ['I', 'n', 'f', 'i', 'n', 'i', 't', 'y'] then .inf false
  else
    match parseUnsignedDecimal cs with
    | some (m, e) => decimalValue m e
    | none => .nan

/-- The radix and the digits of a text that starts like a binary, octal or
hexadecimal literal (`0b`, `0o`, `0x` in either case). -/
def radixLiteral : List Char → Option (Nat × List Char)
  | c :: x :: ds =>
    if c = '0' then
      if x = 'x' ∨ x = 'X' then some (16, ds)
      else if x = 'o' ∨ x = 'O' then some (8, ds)
      else if x = 'b' ∨ x = 'B' then some (2, ds)
      else none
    else none
  | _ => none

/-- The conversion `Number(s)` of a string (`StringToNumber`): white space is
trimmed; the empty text is 0; a binary, octal or hexadecimal literal, or an
optionally signed decimal literal or `Infinity`, is the double nearest to its
value; every other text is `nan`. -/
def stringToNumber (s : String) : Json :=
  match trimSpace s.data with
  | [] => .num 0
  | c :: cs =>
    match radixLiteral (c :: cs) with
    | some (radix, ds) =>
      if isRadixDigits radix ds then roundDouble (radixValue radix ds) 1 else .nan
    | none =>
      if c = '-' then negate (unsignedDecimal cs)
      else if c = '+' then unsignedDecimal cs
      else unsignedDecimal (c :: cs)

/-- The conversion `Number(v)`. -/
def toNumber : Json → Json
  | .undefined => .nan
  | .null => .num 0
  | .bool b => .num (if b then 1 else 0)
  | .num n => .num n
  | .frac m k => .frac m k
  | .inf b => .inf b
  | .nan => .nan
  | .str s => stringToNumber s
  | .obj _ => .nan

/-! ## Bootstrap and handlers -/

/-- The state left by a run of `ensureAdminUser`: the database state and the
collaborator calls made, in order. -/
structure Boot (σ : Type) where
  store : σ
  calls : List Call

/-- The state left by a run of a route handler: the database state, the
collaborator calls made, in order, and the response written.  The response is
`none` when the handler threw outside its `try` block, before any call: the
handler then writes nothing. -/
structure Run (σ : Type) where
  store : σ
  calls : List Call
  response : Option Response

/-- The run of a handler that threw a `TypeError` outside its `try` block
before any collaborator call. -/
def uncaught {σ : Type} (store : σ) : Run σ :=
  { store := store, calls := [], response := none }

/-- The call `res.status(status).json(\x7b error: msg \x7d)`. -/
def errorResponse (status : Nat) (msg : String) : Response :=
  { status := status, body := errorBody msg }

/-- The function `ensureAdminUser` (server.js, lines 49-70).  Every error
thrown inside the `try` block is caught and logged, which ends the run. -/
def ensureAdminUser {σ : Type} (env : Env σ) (store : σ) : Boot σ :=
  let q1 := Call.query .countUsers []
  match env.query .countUsers [] store with
  | (.error _, s1) => { store := s1, calls := [q1] }
  | (.ok result, s1) =>
    match result.rows with
    | [] => { store := s1, calls := [q1] }
    | row :: _ =>
      let count := toNumber (Json.orElse (row.get "count") (.num 0))
      if Json.strictEq count (.num 0) then
        let username := Json.str "admin"
        let password := Json.str "1234"
        let role := Json.str "admin"
        let h := Call.hash password 10
        match env.bcryptHash password 10 with
        | .error _ => { store := s1, calls := [q1, h] }
        | .ok hash =>
          let q2 := Call.query .insertUser [username, .str hash, role]
          { store := (env.query .insertUser [username, .str hash, role] s1).2,
            calls := [q1, h, q2] }
      else { store := s1, calls := [q1] }

/-- The object `\x7b id: user.id, username: user.username, role: user.role \x7d`
built twice by the login handler. -/
def identityOf (user : Json) : Json :=
  .obj [("id", user.get "id"), ("username", user.get "username"), ("role", user.get "role")]

/-- The handler of `POST /auth/login` (server.js, lines 73-107).  The
destructuring of `req.body` on line 74 is outside the `try` block and throws
on a nullish body.  Inside the block, reading a property of `result.rows[0]`
when there is no such row throws, which the `catch` block answers like every
other error. -/
def login {σ : Type} (env : Env σ) (store : σ) (req : Req) : Run σ :=
  if req.body.isNullish then uncaught store
  else
    let username := req.body.get "username"
    let password := req.body.get "password"
    let q := Call.query .selectByUsername [username]
    let internal := errorResponse 500 "Erro interno no servidor"
    match env.query .selectByUsername [username] store with
    | (.error _, s1) => { store := s1, calls := [q], response := some internal }
    | (.ok result, s1) =>
      if result.rowCount = 0 then
        { store := s1, calls := [q],
          response := some (errorResponse 401 "Usuário ou senha inválidos") }
      else
        match result.rows with
        | [] => { store := s1, calls := [q], response := some internal }
        | user :: _ =>
          let c := Call.compare password (user.get "password_hash")
          match env.bcryptCompare password (user.get "password_hash") with
          | .error _ => { store := s1, calls := [q, c], response := some internal }
          | .ok ok =>
            if !ok then
              { store := s1, calls := [q, c],
                response := some (errorResponse 401 "Usuário ou senha inválidos") }
            else
              let sg := Call.sign (identityOf user) (jwtSecret env) "8h"
              match env.jwtSign (identityOf user) (jwtSecret env) "8h" env.now with
              | .error _ => { store := s1, calls := [q, c, sg], response := some internal }
              | .ok token =>
                { store := s1, calls := [q, c, sg],
                  response := some
                    { status := 200,
                      body := .obj [("token", .str token), ("user", identityOf user)] } }

/-- The `catch` block of the `POST /users` handler (server.js, lines 127-135). -/
def createUserCatch (err : JsError) : Response :=
  if Json.strictEq err.code (.str "23505") then errorResponse 400 "Usuário já existe"
  else errorResponse 500 "Erro interno"

/-- The handler of `POST /users` (server.js, lines 112-136), run after
`authMiddleware` and `requireRole(["admin"])` have called `next`.  The
destructuring of `req.body` on line 113 is outside the `try` block and throws
on a nullish body. -/
def createUser {σ : Type} (env : Env σ) (store : σ) (req : Req) : Run σ :=
  if req.body.isNullish then uncaught store
  else
    let username := req.body.get "username"
    let password := req.body.get "password"
    let role := req.body.get "role"
    if !username.truthy || !password.truthy || !role.truthy then
      { store := store, calls := [], response := some (errorResponse 400 "Dados incompletos") }
    else
      let h := Call.hash password 10
      match env.bcryptHash password 10 with
      | .error err => { store := store, calls := [h], response := some (createUserCatch err) }
      | .ok hash =>
        let q := Call.query .insertUserReturning [username, .str hash, role]
        match env.query .insertUserReturning [username, .str hash, role] store with
        | (.error err, s1) =>
          { store := s1, calls := [h, q], response := some (createUserCatch err) }
        | (.ok result, s1) =>
          { store := s1, calls := [h, q],
            response := some { status := 201, body := result.rows.headD .undefined } }

/-- The handler of `DELETE /users/:id` (server.js, lines 152-165), run after
`authMiddleware` and `requireRole(["admin"])` have called `next`.  The read of
`req.user.id` on line 155 is outside the `try` block and throws on a nullish
`req.user`. -/
def deleteUser {σ : Type} (env : Env σ) (store : σ) (req : Req) : Run σ :=
  let id := req.paramsId
  if req.user.isNullish then uncaught store
  else if Json.strictEq (toNumber (.str id)) (req.user.get "id") then
    { store := store, calls := [],
      response := some (errorResponse 400 "Você não pode excluir a si mesmo") }
  else
    let q := Call.query .deleteById [.str id]
    match env.query .deleteById [.str id] store with
    | (.error _, s1) =>
      { store := s1, calls := [q], response := some (errorResponse 500 "Erro interno") }
    | (.ok _, s1) =>
      { store := s1, calls := [q], response := some { status := 204, body := .undefined } }

/-! ## The credential store -/

/-- Modelled from the spec: the user record of the data model (section 3); the
declaration of the `users` table is not part of `server.js`.  The id is an
integer assigned by the store and the username is unique. -/
structure UserRecord where
  id : Nat
  username : String
  password_hash : String
  role : String

/-- Modelled from the spec: the state of the credential store, the user
records in insertion order and the next id that the store assigns. -/
structure Store where
  users : List UserRecord
  nextId : Nat

/-- The row object of the columns `id, username, password_hash, role`. -/
def UserRecord.toRow (u : UserRecord) : Json :=
  .obj [("id", .num u.id), ("username", .str u.username),
        ("password_hash", .str u.password_hash), ("role", .str u.role)]

/-- The row object of the columns `id, username, role`. -/
def UserRecord.toPublicRow (u : UserRecord) : Json :=
  .obj [("id", .num u.id), ("username", .str u.username), ("role", .str u.role)]

/-- The error of the store for a violated uniqueness constraint. -/
def uniqueViolation : JsError :=
  { message := "duplicate key value violates unique constraint", code := .str "23505" }

/-- The error of the store for parameters outside the model. -/
def badParameters : JsError :=
  { message := "invalid input for the statement", code := .str "22P02" }

/-- The insert of the store: refused with the uniqueness violation when the
username is taken, otherwise the record is appended under a fresh id. -/
def Store.insert (st : Store) (username hash role : String) : Option (UserRecord × Store) :=
  if st.users.any (fun u => u.username == username) then none
  else
    let u : UserRecord :=
      { id := st.nextId, username := username, password_hash := hash, role := role }
    some (u, { users := st.users ++ [u], nextId := st.nextId + 1 })

/-- The integer written by an optionally signed run of decimal digits, the
form in which the store reads an id parameter. -/
def integerText (s : String) : Option Int :=
  match s.data with
  | [] => none
  | c :: cs =>
    if c = '-' then (if isDigits cs then some (-(parseDigits cs : Int)) else none)
    else if c = '+' then (if isDigits cs then some (parseDigits cs : Int) else none)
    else if isDigits (c :: cs) then some (parseDigits (c :: cs) : Int)
    else none

/-- Modelled from the spec: the credential store adapter of section 2 (count,
lookup by username, insert, delete by id), answering the statements of `Sql`.
`COUNT(*)` is returned as decimal text, as the driver does for 64-bit
integers.  String parameters are the modelled inputs; other parameter lists
are answered with an error. -/
def pgQuery : Sql → List Json → Store → Except JsError QueryResult × Store
  | .countUsers, [], st =>
    (.ok { rowCount := 1, rows := [.obj [("count", .str (Nat.repr st.users.length))]] }, st)
  | .insertUser, [.str u, .str h, .str r], st =>
    match st.insert u h r with
    | none => (.error uniqueViolation, st)
    | some (_, st1) => (.ok { rowCount := 1, rows := [] }, st1)
  | .insertUserReturning, [.str u, .str h, .str r], st =>
    match st.insert u h r with
    | none => (.error uniqueViolation, st)
    | some (rec, st1) => (.ok { rowCount := 1, rows := [rec.toPublicRow] }, st1)
  | .selectByUsername, [.str u], st =>
    let found := st.users.filter fun x => x.username == u
    (.ok { rowCount := found.length, rows := found.map UserRecord.toRow }, st)
  | .deleteById, [.str id], st =>
    match integerText id with
    | some n =>
      let kept := st.users.filter fun x => (x.id : Int) != n
      (.ok { rowCount := st.users.length - kept.length, rows := [] }, { st with users := kept })
    | none => (.error badParameters, st)
  | _, _, st => (.error badParameters, st)

/-! ## The token service -/

/-- Modelled from the spec: the token of the data model (section 3), a signed
claim set with its issue and expiry times; `jsonwebtoken` is not part of
`server.js`.  The field `secret` stands for the signature: a token verifies
only under the secret it was signed with. -/
structure SignedClaims where
  identity : Json
  issuedAt : Nat
  expiresAt : Nat
  secret : String

/-- The wire format of tokens: how a signed claim set is written as a string
and read back. -/
structure TokenCodec where
  encode : SignedClaims → String
  decode : String → Option SignedClaims

/-- The seconds in a time span written as digits and a unit letter
(`s`, `m`, `h` or `d`), the form of the option `expiresIn: "8h"`. -/
def timespanSeconds (span : String) : Option Nat :=
  match span.data.reverse with
  | [] => none
  | u :: ds =>
    if isDigits ds then
      let n := parseDigits ds.reverse
      if u = 's' then some n
      else if u = 'm' then some (n * 60)
      else if u = 'h' then some (n * 3600)
      else if u = 'd' then some (n * 86400)
      else none
    else none

namespace TokenService

/-- Modelled from the spec: the operation `issue` of the token service
(section 4.2), a token bound to the secret whose expiry is the issue time plus
the fixed offset. -/
def issue (codec : TokenCodec) (identity : Json) (secret : String) (expiresIn : String)
    (now : Nat) : Except JsError String :=
  match timespanSeconds expiresIn with
  | none => .error { message := "invalid expiresIn option", code := .undefined }
  | some life =>
    .ok (codec.encode
      { identity := identity, issuedAt := now, expiresAt := now + life, secret := secret })

/-- Modelled from the spec: the operation `verify` of the token service
(section 4.2): `Missing` when no token is supplied, `Invalid` when the token is
malformed or signed with another secret, `Expired` from `expires_at` onward,
otherwise the decoded identity. -/
def verify (codec : TokenCodec) (token : Json) (secret : String) (now : Nat) :
    Except JsError Json :=
  match token with
  | .str s =>
    match codec.decode s with
    | none => .error { message := "Invalid", code := .undefined }
    | some c =>
      if c.secret != secret then .error { message := "Invalid", code := .undefined }
      else if c.expiresAt ≤ now then .error { message := "Expired", code := .undefined }
      else .ok c.identity
  | _ => .error { message := "Missing", code := .undefined }

end TokenService

/-- The environment in which the token library is the token service over a
wire format. -/
def withTokenService {σ : Type} (codec : TokenCodec) (env : Env σ) : Env σ :=
  { env with jwtSign := TokenService.issue codec, jwtVerify := TokenService.verify codec }

/-- The claim set that the token service signs when a login at the clock value
of `env` succeeds for the row `user`: the identity of the row, issued now,
expiring eight hours later, under the secret of `env`. -/
def loginClaims {σ : Type} (env : Env σ) (user : Json) : SignedClaims :=
  { identity := identityOf user, issuedAt := env.now, expiresAt := env.now + 8 * 3600,
    secret := jwtSecret env }

/-- The environment at another clock value. -/
def atTime {σ : Type} (env : Env σ) (t : Nat) : Env σ :=
  { env with now := t }

/-! ## A concrete environment -/

namespace Sample

/-- A hasher double: the hash of a string is the string behind a cost header;
data that is not a string is refused with an error, as the hasher does. -/
def bcryptHash : Json → Nat → Except JsError String
  | .str p, rounds => .ok ("$2b$" ++ Nat.repr rounds ++ "$" ++ p)
  | _, _ => .error { message := "data and salt arguments required", code := .undefined }

/-- A hasher double for comparison: a non-match is `false`, and data or a hash
that is not a string is refused with an error, as the hasher does. -/
def bcryptCompare : Json → Json → Except JsError Bool
  | .str p, .str h => .ok (h == "$2b$10$" ++ p)
  | _, _ => .error { message := "data and hash arguments required", code := .undefined }

/-- The record of the default administrator with id 1. -/
def admin : UserRecord :=
  { id := 1, username := "admin", password_hash := "$2b$10$1234", role := "admin" }

/-- The identity object of the default administrator. -/
def adminIdentity : Json :=
  .obj [("id", .num 1), ("username", .str "admin"), ("role", .str "admin")]

/-- A signer double with one entry: the identity of the administrator signs to
a fixed token and every other payload is refused. -/
def jwtSign : Json → String → String → Nat → Except JsError String
  | .obj [("id", .num 1), ("username", .str "admin"), ("role", .str "admin")], _, _, _ =>
    .ok "header.payload.signature"
  | _, _, _, _ => .error { message := "payload not in the code book", code := .undefined }

/-- The verifier double that reads the one token of `jwtSign` back. -/
def jwtVerify : Json → String → Nat → Except JsError Json
  | .str s, _, _ =>
    if s = "header.payload.signature" then .ok adminIdentity
    else .error { message := "invalid token", code := .undefined }
  | _, _, _ => .error { message := "jwt must be provided", code := .undefined }

/-- The claim set of the administrator signed at time 1000 for eight hours
under the fallback secret. -/
def adminClaims : SignedClaims :=
  { identity := adminIdentity, issuedAt := 1000, expiresAt := 29800, secret := "segredo-super" }

/-- A wire format with one entry, which writes every claim set as one fixed
token and reads that token back as `adminClaims`. -/
def codec : TokenCodec :=
  { encode := fun _ => "header.payload.signature"
    decode := fun s => if s = "header.payload.signature" then some adminClaims else none }

/-- An environment over the credential store with the doubles above, no
`JWT_SECRET` variable and the clock at 1000. -/
def env : Env Store :=
  { JWT_SECRET := none
    now := 1000
    query := pgQuery
    bcryptHash := bcryptHash
    bcryptCompare := bcryptCompare
    jwtSign := jwtSign
    jwtVerify := jwtVerify }

/-- The empty store. -/
def emptyStore : Store :=
  { users := [], nextId := 1 }

/-- The store that holds the default administrator only. -/
def adminStore : Store :=
  { users := [admin], nextId := 2 }

/-- A request with the given header, identity, body and path parameter. -/
def request (authorization : Option String) (user body : Json) (paramsId : String) : Req :=
  { authorization := authorization, user := user, body := body, paramsId := paramsId }

end Sample

/-! ## Lemmas on text -/

theorem splitSpace_no_space (cs : List Char) (h : ' ' ∉ cs) : splitSpace cs = [cs] := by
  induction cs with
  | nil => rfl
  | cons c cs ih =>
    have hc : c ≠ ' ' := fun e => h (by simp [e])
    have hcs : ' ' ∉ cs := fun m => h (List.mem_cons_of_mem _ m)
    simp [splitSpace, hc, ih hcs]

theorem splitSpace_append_space (xs ys : List Char) (h : ' ' ∉ xs) :
    splitSpace (xs ++ ' ' :: ys) = xs :: splitSpace ys := by
  induction xs with
  | nil => simp [splitSpace]
  | cons c cs ih =>
    have hc : c ≠ ' ' := fun e => h (by simp [e])
    have hcs : ' ' ∉ cs := fun m => h (List.mem_cons_of_mem _ m)
    simp [splitSpace, hc, ih hcs]

theorem headerToken_eq (h : String) :
    headerToken h =
      match (splitSpace h.data)[1]? with
      | some t => Json.str (String.mk t)
      | none => Json.undefined := by
  unfold headerToken
  rcases hs : splitSpace h.data with _ | ⟨a, _ | ⟨b, r⟩⟩ <;> simp

theorem headerToken_no_space (h : String) (hn : ' ' ∉ h.data) :
    headerToken h = Json.undefined := by
  simp [headerToken, splitSpace_no_space _ hn]

theorem headerToken_bearer (tok : String) (hn : ' ' ∉ tok.data) :
    headerToken ("Bearer " ++ tok) = Json.str tok := by
  have h1 : ("Bearer " ++ tok).data = ['B', 'e', 'a', 'r', 'e', 'r'] ++ ' ' :: tok.data := by
    simp [String.data_append]
  have h2 : splitSpace (['B', 'e', 'a', 'r', 'e', 'r'] ++ ' ' :: tok.data)
      = ['B', 'e', 'a', 'r', 'e', 'r'] :: splitSpace tok.data :=
    splitSpace_append_space _ _ (by decide)
  unfold headerToken
  rw [h1, h2, splitSpace_no_space _ hn]

/-! ## Lemmas on rounding -/

theorem log2Fuel_le (fuel n : Nat) (hn : n ≠ 0) : 2 ^ log2Fuel fuel n ≤ n := by
  induction fuel generalizing n with
  | zero => simp [log2Fuel]; omega
  | succ fuel ih =>
    simp only [log2Fuel]
    split
    · simp; omega
    · have h2 : n / 2 ≠ 0 := by omega
      have := ih (n / 2) h2
      rw [Nat.pow_succ]
      omega

theorem floorLog2_le (n : Nat) (hn : n ≠ 0) : 2 ^ floorLog2 n ≤ n :=
  log2Fuel_le n n hn

theorem floorLog2Ratio_one (n : Nat) (hn : n ≠ 0) :
    floorLog2Ratio n 1 = (floorLog2 n : Int) := by
  have h1 : floorLog2 1 = 0 := rfl
  have := floorLog2_le n hn
  simp [floorLog2Ratio, h1, this]

theorem roundHalfEven_one (a : Nat) : roundHalfEven a 1 = a := by
  simp [roundHalfEven, Nat.mod_one]

theorem roundHalfEven_ge (a b : Nat) : a / b ≤ roundHalfEven a b := by
  simp only [roundHalfEven]
  split
  · exact Nat.le_refl _
  · split
    · omega
    · split <;> omega

/-- An integer below `2 ^ 53` is its own double. -/
theorem roundDouble_exact (n : Nat) (h : n < 2 ^ 53) : roundDouble n 1 = Json.num n := by
  by_cases hn : n = 0
  · simp [roundDouble, hn]
  · have hL := floorLog2_le n hn
    have hL52 : floorLog2 n ≤ 52 := by
      by_contra hc
      have : 2 ^ 53 ≤ 2 ^ floorLog2 n := Nat.pow_le_pow_right (by decide) (by omega)
      omega
    have hs : max ((floorLog2 n : Int) - 52) (-1074) = (floorLog2 n : Int) - 52 := by omega
    simp only [roundDouble, hn, if_false, floorLog2Ratio_one n hn, hs]
    by_cases h52 : floorLog2 n = 52
    · simp [h52, roundHalfEven_one]
    · have hneg : ¬ (0 ≤ (floorLog2 n : Int) - 52) := by omega
      have hk : (-((floorLog2 n : Int) - 52)).toNat = 52 - floorLog2 n := by omega
      have hz : ((floorLog2 n : Int) - 52).toNat = 0 := by omega
      simp only [hneg, if_false, hk, hz, Nat.pow_zero, Nat.mul_one, roundHalfEven_one]
      have hpos : 0 < 2 ^ (52 - floorLog2 n) := Nat.pow_pos (by decide)
      simp [Nat.mul_mod_left, Nat.mul_div_cancel _ hpos]

/-- The double of a positive integer is not zero. -/
theorem roundDouble_ne_zero (n : Nat) (hn : n ≠ 0) :
    Json.strictEq (roundDouble n 1) (.num 0) = false := by
  have hL := floorLog2_le n hn
  have hs : max ((floorLog2 n : Int) - 52) (-1074) = (floorLog2 n : Int) - 52 := by omega
  simp only [roundDouble, hn, if_false, floorLog2Ratio_one n hn, hs]
  by_cases h52 : 52 ≤ floorLog2 n
  · have hpos : 0 ≤ (floorLog2 n : Int) - 52 := by omega
    have hk : (-((floorLog2 n : Int) - 52)).toNat = 0 := by omega
    have hz : ((floorLog2 n : Int) - 52).toNat = floorLog2 n - 52 := by omega
    simp only [hpos, if_true, hk, hz, Nat.pow_zero, Nat.mul_one, Nat.one_mul]
    have hle : 2 ^ (floorLog2 n - 52) ≤ n :=
      Nat.le_trans (Nat.pow_le_pow_right (by decide) (by omega)) hL
    have hp2 : 0 < 2 ^ (floorLog2 n - 52) := Nat.pow_pos (by decide)
    have hm : 0 < roundHalfEven n (2 ^ (floorLog2 n - 52)) :=
      Nat.lt_of_lt_of_le (Nat.div_pos hle hp2) (roundHalfEven_ge _ _)
    split
    · rfl
    · have : roundHalfEven n (2 ^ (floorLog2 n - 52)) * 2 ^ (floorLog2 n - 52) ≠ 0 :=
        Nat.mul_ne_zero (by omega) (by omega)
      simp only [Json.strictEq, beq_eq_false_iff_ne, ne_eq]
      exact_mod_cast this
  · have hneg : ¬ (0 ≤ (floorLog2 n : Int) - 52) := by omega
    have hk : (-((floorLog2 n : Int) - 52)).toNat = 52 - floorLog2 n := by omega
    have hz : ((floorLog2 n : Int) - 52).toNat = 0 := by omega
    simp only [hneg, if_false, hk, hz, Nat.pow_zero, Nat.mul_one, roundHalfEven_one]
    have hpos : 0 < 2 ^ (52 - floorLog2 n) := Nat.pow_pos (by decide)
    simp only [Nat.mul_mod_left, if_true, Nat.mul_div_cancel _ hpos, Json.strictEq,
      beq_eq_false_iff_ne, ne_eq]
    exact_mod_cast hn

/-! ## Lemmas on decimal text -/

theorem digitChar_value (k : Nat) (h : k < 10) :
    (Nat.digitChar k).toNat - 48 = k ∧ (Nat.digitChar k).isDigit = true := by
  interval_cases k <;> decide

theorem isDigit_range (c : Char) (h : c.isDigit = true) : 48 ≤ c.toNat ∧ c.toNat ≤ 57 := by
  simpa [Char.isDigit, Char.toNat, UInt32.le_def, Nat.le_antisymm_iff] using h

theorem isDigit_not_space (c : Char) (h : c.isDigit = true) : isJsSpace c = false := by
  obtain ⟨a, b⟩ := isDigit_range c h
  simp only [isJsSpace]
  generalize c.toNat = k at a b
  interval_cases k <;> decide

theorem isDigit_ne (c d : Char) (h : c.isDigit = true) (hd : d.isDigit = false) : c ≠ d := by
  rintro rfl
  rw [h] at hd
  exact absurd hd (by decide)

theorem parseDigits_toDigitsCore (fuel n : Nat) (ds : List Char) (h : n < fuel) :
    List.foldl (fun acc c => acc * 10 + (c.toNat - 48)) 0 (Nat.toDigitsCore 10 fuel n ds)
      = List.foldl (fun acc c => acc * 10 + (c.toNat - 48)) n ds := by
  induction fuel generalizing n ds with
  | zero => omega
  | succ fuel ih =>
    have hd := (digitChar_value (n % 10) (Nat.mod_lt _ (by decide))).1
    simp only [Nat.toDigitsCore]
    split
    · next h0 =>
      have : n % 10 = n := by omega
      rw [this] at hd
      simp only [List.foldl_cons, Nat.zero_mul, Nat.zero_add, this, hd]
    · next h0 =>
      rw [ih (n / 10) _ (by omega)]
      have : n / 10 * 10 + n % 10 = n := by omega
      simp [List.foldl, hd, this]

theorem all_isDigit_toDigitsCore (fuel n : Nat) (ds : List Char)
    (h : ds.all Char.isDigit = true) :
    (Nat.toDigitsCore 10 fuel n ds).all Char.isDigit = true := by
  induction fuel generalizing n ds with
  | zero => simpa [Nat.toDigitsCore] using h
  | succ fuel ih =>
    have hd := (digitChar_value (n % 10) (Nat.mod_lt _ (by decide))).2
    simp only [Nat.toDigitsCore]
    split
    · simp [hd, h]
    · exact ih _ _ (by simp [hd, h])

theorem toDigitsCore_ne_nil (fuel n : Nat) (ds : List Char) :
    Nat.toDigitsCore 10 (fuel + 1) n ds ≠ [] := by
  induction fuel generalizing n ds with
  | zero =>
    simp only [Nat.toDigitsCore]
    split <;> simp
  | succ fuel ih =>
    rw [Nat.toDigitsCore]
    split
    · simp
    · exact ih _ _

theorem dropWhile_eq_self {α : Type} (p : α → Bool) (l : List α)
    (h : ∀ x ∈ l, p x = false) : l.dropWhile p = l := by
  cases l with
  | nil => rfl
  | cons a l => simp [List.dropWhile, h a (by simp)]

theorem span_all {α : Type} (p : α → Bool) (l : List α) (h : ∀ x ∈ l, p x = true) :
    l.span p = (l, []) := by
  rw [List.span_eq_take_drop, List.takeWhile_eq_self_iff.mpr h, List.dropWhile_eq_nil_iff.mpr h]

theorem trimSpace_digits (cs : List Char) (h : cs.all Char.isDigit = true) :
    trimSpace cs = cs := by
  have hall : ∀ x ∈ cs, isJsSpace x = false := fun x hx =>
    isDigit_not_space x (List.all_eq_true.mp h x hx)
  unfold trimSpace
  rw [dropWhile_eq_self _ _ hall, dropWhile_eq_self _ _ (by simpa using hall)]
  simp

theorem parseUnsignedDecimal_digits (cs : List Char) (h : cs.all Char.isDigit = true)
    (hne : cs ≠ []) : parseUnsignedDecimal cs = some (parseDigits cs, 0) := by
  have hd : ∀ x ∈ cs, x.isDigit = true := List.all_eq_true.mp h
  have h1 : cs.span (fun c => c != 'e' && c != 'E') = (cs, []) :=
    span_all _ _ fun x hx => by
      have a := isDigit_ne x 'e' (hd x hx) (by decide)
      have b := isDigit_ne x 'E' (hd x hx) (by decide)
      simp [a, b]
  have h2 : cs.span (fun c => c != '.') = (cs, []) :=
    span_all _ _ fun x hx => by
      have a := isDigit_ne x '.' (hd x hx) (by decide)
      simp [a]
  have h3 : isDigits cs = true := by
    cases cs with
    | nil => exact absurd rfl hne
    | cons c cs => simpa [isDigits] using h
  simp only [parseUnsignedDecimal, h1, h2, h3, if_true, List.append_nil, List.length_nil]
  simp

theorem radixLiteral_digits (cs : List Char) (h : cs.all Char.isDigit = true) :
    radixLiteral cs = none := by
  have hd : ∀ x ∈ cs, x.isDigit = true := List.all_eq_true.mp h
  rcases cs with _ | ⟨c, _ | ⟨x, ds⟩⟩
  · rfl
  · rfl
  · have hx : x.isDigit = true := hd x (by simp)
    have a1 := isDigit_ne x 'x' hx (by decide)
    have a2 := isDigit_ne x 'X' hx (by decide)
    have a3 := isDigit_ne x 'o' hx (by decide)
    have a4 := isDigit_ne x 'O' hx (by decide)
    have a5 := isDigit_ne x 'b' hx (by decide)
    have a6 := isDigit_ne x 'B' hx (by decide)
    simp [radixLiteral, a1, a2, a3, a4, a5, a6]

theorem repr_data (n : Nat) : (Nat.repr n).data = Nat.toDigitsCore 10 (n + 1) n [] := rfl

/-- The conversion of the decimal text of a natural number is the double
nearest to it. -/
theorem stringToNumber_repr_round (n : Nat) :
    stringToNumber (Nat.repr n) = roundDouble n 1 := by
  have hall := all_isDigit_toDigitsCore (n + 1) n [] rfl
  have hne := toDigitsCore_ne_nil n n []
  have hval := parseDigits_toDigitsCore (n + 1) n [] (by omega)
  unfold stringToNumber
  rw [repr_data, trimSpace_digits _ hall]
  have hrad := radixLiteral_digits _ hall
  have hpar := parseUnsignedDecimal_digits _ hall hne
  rcases hd : Nat.toDigitsCore 10 (n + 1) n [] with _ | ⟨c, cs⟩
  · exact absurd hd hne
  · rw [hd] at hall hval hrad hpar
    have hc : c.isDigit = true := List.all_eq_true.mp hall c (by simp)
    have h1 := isDigit_ne c '-' hc (by decide)
    have h2 := isDigit_ne c '+' hc (by decide)
    have h3 := isDigit_ne c 'I' hc (by decide)
    have hp : parseDigits (c :: cs) = n := by
      simpa [parseDigits] using hval
    have hinf : (c :: cs) ≠ ['I', 'n', 'f', 'i', 'n', 'i', 't', 'y'] := by
      intro e
      exact h3 (List.cons.inj e).1
    simp only [hrad, h1, h2, if_false, unsignedDecimal, hinf, hpar, hp, decimalValue]
    simp

/-- The conversion of the decimal text of a natural number below `2 ^ 53` is
that number. -/
theorem stringToNumber_repr (n : Nat) (h : n < 2 ^ 53) :
    stringToNumber (Nat.repr n) = Json.num n := by
  rw [stringToNumber_repr_round, roundDouble_exact n h]

theorem repr_ne_empty (n : Nat) : Nat.repr n ≠ "" := by
  intro h
  have := congrArg String.data h
  rw [repr_data] at this
  exact toDigitsCore_ne_nil n n [] this

/-! ## Lemmas on the collaborators -/

theorem strictEq_str_iff (a : Json) (s : String) :
    Json.strictEq a (.str s) = true ↔ a = .str s := by
  cases a <;> simp [Json.strictEq]

theorem Sample.verify_undoes_sign (p : Json) (s e : String) (T t : Nat) (k : String)
    (h : Sample.jwtSign p s e T = .ok k) : Sample.jwtVerify (.str k) s t = .ok p := by
  unfold Sample.jwtSign at h
  split at h
  · cases h
    rfl
  · cases h

theorem truthy_get_not_nullish (v : Json) (k : String) (h : (v.get k).truthy = true) :
    v.isNullish = false := by
  cases v <;> simp_all [Json.get, Json.truthy, Json.isNullish]

/-! ## The role gate -/

/-- C1: for every allowed-role list and every request, the middleware of
`requireRole` rejects with 401 without calling `next` when the request carries
no identity; otherwise rejects with 403 without calling `next` when the role of
the identity is not in the list; otherwise calls `next` exactly once and writes
no response.  Exactly one of the three cases applies. -/
theorem requireRole_decision (roles : List Json) (req : Req) :
    (req.user.truthy = false →
      requireRole roles req =
        { req := req,
          response := some { status := 401, body := errorBody "Não autenticado" },
          nextCalls := 0 }) ∧
    (req.user.truthy = true → Json.includes roles (req.user.get "role") = false →
      requireRole roles req =
        { req := req,
          response := some { status := 403, body := errorBody "Permissão negada" },
          nextCalls := 0 }) ∧
    (req.user.truthy = true → Json.includes roles (req.user.get "role") = true →
      requireRole roles req = { req := req, response := none, nextCalls := 1 }) ∧
    (req.user.truthy = false ∨
      (req.user.truthy = true ∧ Json.includes roles (req.user.get "role") = false) ∨
      (req.user.truthy = true ∧ Json.includes roles (req.user.get "role") = true)) ∧
    ¬ (req.user.truthy = false ∧ req.user.truthy = true) ∧
    ¬ (Json.includes roles (req.user.get "role") = false ∧
        Json.includes roles (req.user.get "role") = true) := by
  refine ⟨?_, ?_, ?_, ?_, ?_, ?_⟩
  · intro h
    simp [requireRole, h, reject]
  · intro h hi
    simp [requireRole, h, hi, reject]
  · intro h hi
    simp [requireRole, h, hi, callNext]
  · cases req.user.truthy <;> cases Json.includes roles (req.user.get "role") <;> simp
  · simp
  · simp

/-- Witness of C1: an administrator passes the gate of `["admin"]`, a manager
is answered 403 and a request without identity is answered 401. -/
theorem requireRole_decision_witness :
    requireRole [.str "admin"] (Sample.request none Sample.adminIdentity .undefined "")
      = { req := Sample.request none Sample.adminIdentity .undefined "",
          response := none, nextCalls := 1 } ∧
    requireRole [.str "admin"]
        (Sample.request none (.obj [("role", .str "gestor")]) .undefined "")
      = { req := Sample.request none (.obj [("role", .str "gestor")]) .undefined "",
          response := some { status := 403, body := errorBody "Permissão negada" },
          nextCalls := 0 } ∧
    requireRole [.str "admin"] (Sample.request none .undefined .undefined "")
      = { req := Sample.request none .undefined .undefined "",
          response := some { status := 401, body := errorBody "Não autenticado" },
          nextCalls := 0 } :=
  ⟨(requireRole_decision _ _).2.2.1 rfl rfl,
   (requireRole_decision _ _).2.1 rfl rfl,
   (requireRole_decision _ _).1 rfl⟩

/-- C3, as stated, fails: the gate with the empty allowed-role set answers an
authenticated administrator with 403 and does not call `next`. -/
theorem requireRole_empty_counterexample :
    (requireRole [] (Sample.request none Sample.adminIdentity .undefined "")).nextCalls = 0 ∧
    (requireRole [] (Sample.request none Sample.adminIdentity .undefined "")).response.map
        Response.status = some 403 := by
  decide

/-- C3, amended: the gate with the empty allowed-role set answers every request
that carries an identity, whatever its role, with 403 and never calls
`next`. -/
theorem requireRole_empty_forbids (req : Req) (h : req.user.truthy = true) :
    requireRole [] req =
      { req := req,
        response := some { status := 403, body := errorBody "Permissão negada" },
        nextCalls := 0 } := by
  simp [requireRole, h, reject, Json.includes]

/-- Witness of the amended C3 at an administrator identity. -/
theorem requireRole_empty_forbids_witness :
    requireRole [] (Sample.request none Sample.adminIdentity .undefined "") =
      { req := Sample.request none Sample.adminIdentity .undefined "",
        response := some { status := 403, body := errorBody "Permissão negada" },
        nextCalls := 0 } :=
  requireRole_empty_forbids _ rfl

/-! ## The authentication stage -/

/-- C2, as stated, fails: a header whose token does not verify is answered with
status 403, not with the 401 of a missing header. -/
theorem authMiddleware_invalid_counterexample :
    (authMiddleware Sample.env
        (Sample.request (some "Bearer forged") .undefined .undefined "")).response.map
        Response.status = some 403 ∧
    (authMiddleware Sample.env
        (Sample.request (some "Bearer forged") .undefined .undefined "")).response.map
        Response.status ≠ some 401 := by
  decide

/-- C2, amended: `authMiddleware` answers a request without authorization
header (absent or empty) with 401, and a request whose header carries a token
that fails verification with 403; in both cases the request is left as it was,
without identity attached, and `next` is not called. -/
theorem authMiddleware_rejections {σ : Type} (env : Env σ) (req : Req) :
    (req.authorization = none ∨ req.authorization = some "" →
      authMiddleware env req =
        { req := req,
          response := some { status := 401, body := errorBody "Token não informado" },
          nextCalls := 0 }) ∧
    (∀ h e, req.authorization = some h → h ≠ "" →
      env.jwtVerify (headerToken h) (jwtSecret env) env.now = .error e →
      authMiddleware env req =
        { req := req,
          response := some { status := 403, body := errorBody "Token inválido" },
          nextCalls := 0 }) := by
  constructor
  · rintro (h | h) <;> simp [authMiddleware, h, reject]
  · intro h e hh hne hv
    simp [authMiddleware, hh, hne, hv, reject]

/-- Witness of the amended C2: no header gives 401, a forged token gives
403. -/
theorem authMiddleware_rejections_witness :
    authMiddleware Sample.env (Sample.request none .undefined .undefined "") =
      { req := Sample.request none .undefined .undefined "",
        response := some { status := 401, body := errorBody "Token não informado" },
        nextCalls := 0 } ∧
    authMiddleware Sample.env (Sample.request (some "Bearer forged") .undefined .undefined "") =
      { req := Sample.request (some "Bearer forged") .undefined .undefined "",
        response := some { status := 403, body := errorBody "Token inválido" },
        nextCalls := 0 } :=
  ⟨(authMiddleware_rejections Sample.env _).1 (Or.inl rfl),
   (authMiddleware_rejections Sample.env _).2 "Bearer forged"
     { message := "invalid token", code := .undefined } rfl (by decide) rfl⟩

/-- C10: two requests whose non-empty authorization headers have the same
second segment under `split(" ")` get the same decision from `authMiddleware`:
the same response, the same number of calls of `next` and the same attached
identity.  The token verified is the second segment alone, and a header
without space yields the token `undefined`, which is answered with the 403 of
an invalid token whenever verification refuses it. -/
theorem authMiddleware_second_segment {σ : Type} (env : Env σ) (r1 r2 : Req) (h1 h2 : String)
    (a1 : r1.authorization = some h1) (a2 : r2.authorization = some h2)
    (n1 : h1 ≠ "") (n2 : h2 ≠ "")
    (same : (splitSpace h1.data)[1]? = (splitSpace h2.data)[1]?) :
    (authMiddleware env r1).response = (authMiddleware env r2).response ∧
    (authMiddleware env r1).nextCalls = (authMiddleware env r2).nextCalls ∧
    ((authMiddleware env r1).nextCalls = 1 →
      (authMiddleware env r1).req.user = (authMiddleware env r2).req.user) ∧
    (authMiddleware env r1 =
      match env.jwtVerify
          (match (splitSpace h1.data)[1]? with
            | some t => Json.str (String.mk t)
            | none => Json.undefined) (jwtSecret env) env.now with
      | .error _ => reject r1 403 "Token inválido"
      | .ok user => callNext { r1 with user := user }) ∧
    (' ' ∉ h1.data → ∀ e, env.jwtVerify .undefined (jwtSecret env) env.now = .error e →
      authMiddleware env r1 = reject r1 403 "Token inválido") := by
  have t12 : headerToken h1 = headerToken h2 := by
    rw [headerToken_eq, headerToken_eq, same]
  have e1 : authMiddleware env r1 =
      match env.jwtVerify (headerToken h1) (jwtSecret env) env.now with
      | .error _ => reject r1 403 "Token inválido"
      | .ok user => callNext { r1 with user := user } := by
    simp [authMiddleware, a1, n1]
  have e2 : authMiddleware env r2 =
      match env.jwtVerify (headerToken h1) (jwtSecret env) env.now with
      | .error _ => reject r2 403 "Token inválido"
      | .ok user => callNext { r2 with user := user } := by
    simp [authMiddleware, a2, n2, t12]
  refine ⟨?_, ?_, ?_, ?_, ?_⟩
  · rw [e1, e2]
    cases env.jwtVerify (headerToken h1) (jwtSecret env) env.now <;> simp [reject, callNext]
  · rw [e1, e2]
    cases env.jwtVerify (headerToken h1) (jwtSecret env) env.now <;> simp [reject, callNext]
  · rw [e1, e2]
    cases env.jwtVerify (headerToken h1) (jwtSecret env) env.now <;> simp [reject, callNext]
  · rw [e1, headerToken_eq]
  · intro hs e hv
    rw [e1, headerToken_no_space _ hs, hv]

/-- Witness of C10: the headers `Bearer header.payload.signature` and
`Basic header.payload.signature trailing` are decided alike. -/
theorem authMiddleware_second_segment_witness :
    (authMiddleware Sample.env
        (Sample.request (some "Bearer header.payload.signature") .undefined .undefined "")).response
      = (authMiddleware Sample.env
        (Sample.request (some "Basic header.payload.signature trailing") .undefined .undefined
          "")).response :=
  (authMiddleware_second_segment Sample.env _ _ "Bearer header.payload.signature"
    "Basic header.payload.signature trailing" rfl rfl (by decide) (by decide) (by decide)).1

/-! ## Login -/

/-- C4: the code breaks the claim.  Against a store that holds `admin`, a
login without password field is answered 401 for the unknown username `ghost`
and 500 for `admin`: the hasher throws on the missing password and the `catch`
block answers with the internal error, so the two responses differ and tell
whether the username exists. -/
theorem login_missing_password_divergence :
    (login Sample.env Sample.adminStore
        (Sample.request none .undefined (.obj [("username", .str "ghost")]) "")).response.map
        Response.status = some 401 ∧
    (login Sample.env Sample.adminStore
        (Sample.request none .undefined (.obj [("username", .str "admin")]) "")).response.map
        Response.status = some 500 ∧
    (login Sample.env Sample.adminStore
        (Sample.request none .undefined (.obj [("username", .str "ghost")]) "")).response
      ≠ (login Sample.env Sample.adminStore
        (Sample.request none .undefined (.obj [("username", .str "admin")]) "")).response :=
  ⟨by decide, by decide,
   fun h => absurd (congrArg (fun r => r.map Response.status) h) (by decide)⟩

/-- C5: when the request carries a body, the lookup by username returns a
record and the password verifies against its hash, the login handler answers
200 with the body of `token` and `user`, where `user` is exactly the id,
username and role of the record; the payload handed to the signer is that same
triple, so a verifier that undoes the signer decodes it; and neither the body
nor the payload has a `password_hash` property. -/
theorem login_success {σ : Type} (env : Env σ) (store : σ) (req : Req) (s1 : σ)
    (rest : List Json) (n : Nat) (user : Json) (tok : String)
    (hasBody : req.body.isNullish = false)
    (found : env.query .selectByUsername [req.body.get "username"] store
      = (.ok { rowCount := n + 1, rows := user :: rest }, s1))
    (verified : env.bcryptCompare (req.body.get "password") (user.get "password_hash")
      = .ok true)
    (signed : env.jwtSign
        (.obj [("id", user.get "id"), ("username", user.get "username"),
               ("role", user.get "role")]) (jwtSecret env) "8h" env.now = .ok tok) :
    (login env store req).response = some
      { status := 200,
        body := .obj [("token", .str tok),
          ("user", .obj [("id", user.get "id"), ("username", user.get "username"),
                         ("role", user.get "role")])] } ∧
    (login env store req).calls =
      [ .query .selectByUsername [req.body.get "username"],
        .compare (req.body.get "password") (user.get "password_hash"),
        .sign (.obj [("id", user.get "id"), ("username", user.get "username"),
                     ("role", user.get "role")]) (jwtSecret env) "8h" ] ∧
    (∀ t, (∀ p k, env.jwtSign p (jwtSecret env) "8h" env.now = .ok k →
          env.jwtVerify (.str k) (jwtSecret env) t = .ok p) →
      env.jwtVerify (.str tok) (jwtSecret env) t =
        .ok (.obj [("id", user.get "id"), ("username", user.get "username"),
                   ("role", user.get "role")])) ∧
    (login env store req).response.map (fun r => r.body.get "password_hash")
      = some .undefined ∧
    (login env store req).response.map (fun r => (r.body.get "user").get "password_hash")
      = some .undefined ∧
    (Json.obj [("id", user.get "id"), ("username", user.get "username"),
               ("role", user.get "role")]).get "password_hash" = .undefined := by
  have hr : (login env store req).response = some
      { status := 200,
        body := .obj [("token", .str tok),
          ("user", .obj [("id", user.get "id"), ("username", user.get "username"),
                         ("role", user.get "role")])] } := by
    simp [login, hasBody, found, verified, identityOf, signed]
  refine ⟨hr, ?_, ?_, ?_, ?_, ?_⟩
  · simp [login, hasBody, found, verified, identityOf, signed]
  · intro t undo
    exact undo _ _ signed
  · rw [hr]; simp [Json.get, List.lookup]
  · rw [hr]; simp [Json.get, List.lookup]
  · simp [Json.get, List.lookup]

/-- Witness of C5: `admin` with password `1234` logs in against the store that
holds the default administrator, and the verifier double decodes the token to
the identity of the record. -/
theorem login_success_witness :
    (login Sample.env Sample.adminStore
        (Sample.request none .undefined
          (.obj [("username", .str "admin"), ("password", .str "1234")]) "")).response = some
      { status := 200,
        body := .obj [("token", .str "header.payload.signature"),
          ("user", .obj [("id", .num 1), ("username", .str "admin"),
                         ("role", .str "admin")])] } ∧
    Sample.jwtVerify (.str "header.payload.signature") "segredo-super" 5000 =
      .ok (.obj [("id", .num 1), ("username", .str "admin"), ("role", .str "admin")]) :=
  ⟨(login_success Sample.env Sample.adminStore
      (Sample.request none .undefined
        (.obj [("username", .str "admin"), ("password", .str "1234")]) "")
      Sample.adminStore [] 0 Sample.admin.toRow "header.payload.signature" rfl rfl rfl rfl).1,
   (login_success Sample.env Sample.adminStore
      (Sample.request none .undefined
        (.obj [("username", .str "admin"), ("password", .str "1234")]) "")
      Sample.adminStore [] 0 Sample.admin.toRow "header.payload.signature" rfl rfl rfl
      rfl).2.2.1
      5000 (fun p k h => Sample.verify_undoes_sign p _ _ _ 5000 k h)⟩

/-! ## User management -/

/-- C6, as stated, fails: an identity with role `admin` whose id is the string
`"1"` passes the admin gate, and its request `DELETE /users/1` is not
rejected: the delete is issued, the record with id 1 is removed and the answer
is 204. -/
theorem deleteUser_string_id_counterexample :
    (requireRole [.str "admin"]
        (Sample.request none
          (.obj [("id", .str "1"), ("username", .str "admin"), ("role", .str "admin")])
          .undefined "1")).nextCalls = 1 ∧
    (deleteUser Sample.env Sample.adminStore
        (Sample.request none
          (.obj [("id", .str "1"), ("username", .str "admin"), ("role", .str "admin")])
          .undefined "1")).calls = [.query .deleteById [.str "1"]] ∧
    (deleteUser Sample.env Sample.adminStore
        (Sample.request none
          (.obj [("id", .str "1"), ("username", .str "admin"), ("role", .str "admin")])
          .undefined "1")).store.users.length = 0 ∧
    (deleteUser Sample.env Sample.adminStore
        (Sample.request none
          (.obj [("id", .str "1"), ("username", .str "admin"), ("role", .str "admin")])
          .undefined "1")).response.map Response.status = some 204 :=
  ⟨by decide, rfl, by decide, by decide⟩

/-- C6, amended: when the id of the acting identity is a number and the path
parameter of `DELETE /users/:id` has that number as its numeric value, the
handler answers with the self-operation error 400, issues no store call and
leaves the store as it was.  The decimal text of an id below `2 ^ 53` is such
a parameter. -/
theorem deleteUser_self_rejected {σ : Type} (env : Env σ) (store : σ) (req : Req) (x : Json)
    (number : x.isNumber = true) (acting : req.user.get "id" = x) :
    (toNumber (.str req.paramsId) = x →
      deleteUser env store req =
        { store := store, calls := [],
          response := some
            { status := 400,
              body := .obj [("error", .str "Você não pode excluir a si mesmo")] } }) ∧
    (∀ n : Nat, n < 2 ^ 53 → x = .num n → req.paramsId = Nat.repr n →
      deleteUser env store req =
        { store := store, calls := [],
          response := some
            { status := 400,
              body := .obj [("error", .str "Você não pode excluir a si mesmo")] } }) := by
  have hu : req.user.isNullish = false := by
    cases hreq : req.user <;> simp [Json.isNullish] <;>
      (rw [hreq] at acting; subst acting; exact absurd number (by simp [Json.get, Json.isNumber]))
  have hxx : Json.strictEq x x = true := by
    cases x <;> simp_all [Json.isNumber, Json.strictEq]
  have general : toNumber (.str req.paramsId) = x →
      deleteUser env store req =
        { store := store, calls := [],
          response := some
            { status := 400,
              body := .obj [("error", .str "Você não pode excluir a si mesmo")] } } := by
    intro target
    simp [deleteUser, hu, target, acting, hxx, errorResponse, errorBody]
  refine ⟨general, ?_⟩
  intro n hn hx hp
  apply general
  rw [hp, hx]
  exact stringToNumber_repr n hn

/-- Witness of the amended C6: the administrator with id 1 is refused both
`DELETE /users/1.0` and `DELETE /users/1`. -/
theorem deleteUser_self_rejected_witness :
    deleteUser Sample.env Sample.adminStore
        (Sample.request none Sample.adminIdentity .undefined "1.0") =
      { store := Sample.adminStore, calls := [],
        response := some
          { status := 400,
            body := .obj [("error", .str "Você não pode excluir a si mesmo")] } } ∧
    deleteUser Sample.env Sample.adminStore
        (Sample.request none Sample.adminIdentity .undefined "1") =
      { store := Sample.adminStore, calls := [],
        response := some
          { status := 400,
            body := .obj [("error", .str "Você não pode excluir a si mesmo")] } } :=
  ⟨(deleteUser_self_rejected Sample.env Sample.adminStore
      (Sample.request none Sample.adminIdentity .undefined "1.0") (.num 1) rfl rfl).1 rfl,
   (deleteUser_self_rejected Sample.env Sample.adminStore
      (Sample.request none Sample.adminIdentity .undefined "1") (.num 1) rfl rfl).2 1
      (by decide) rfl rfl⟩

/-- C8: the handler of `POST /users` answers a request whose body lacks
username, password or role with the validation error 400 before any hashing or
store call; when the insert fails with the uniqueness violation `23505` it answers
with the conflict error, which differs from the internal error 500 given for
every other hashing or store failure and from the validation error; and after
a failure the handler makes no further call, so the store is as the failed
insert left it. -/
theorem createUser_failures {σ : Type} (env : Env σ) (store : σ) (req : Req) :
    (req.body.isNullish = false →
      req.body.get "username" = .undefined ∨ req.body.get "password" = .undefined ∨
        req.body.get "role" = .undefined →
      createUser env store req =
        { store := store, calls := [],
          response := some
            { status := 400, body := .obj [("error", .str "Dados incompletos")] } }) ∧
    (∀ hash err s1,
      (req.body.get "username").truthy = true → (req.body.get "password").truthy = true →
      (req.body.get "role").truthy = true →
      env.bcryptHash (req.body.get "password") 10 = .ok hash →
      env.query .insertUserReturning
          [req.body.get "username", .str hash, req.body.get "role"] store = (.error err, s1) →
      (err.code = .str "23505" →
        createUser env store req =
          { store := s1,
            calls := [.hash (req.body.get "password") 10,
              .query .insertUserReturning
                [req.body.get "username", .str hash, req.body.get "role"]],
            response := some
              { status := 400, body := .obj [("error", .str "Usuário já existe")] } }) ∧
      (err.code ≠ .str "23505" →
        createUser env store req =
          { store := s1,
            calls := [.hash (req.body.get "password") 10,
              .query .insertUserReturning
                [req.body.get "username", .str hash, req.body.get "role"]],
            response := some
              { status := 500, body := .obj [("error", .str "Erro interno")] } })) ∧
    (∀ err,
      (req.body.get "username").truthy = true → (req.body.get "password").truthy = true →
      (req.body.get "role").truthy = true →
      env.bcryptHash (req.body.get "password") 10 = .error err →
      err.code ≠ .str "23505" →
      createUser env store req =
        { store := store, calls := [.hash (req.body.get "password") 10],
          response := some
            { status := 500, body := .obj [("error", .str "Erro interno")] } }) ∧
    (({ status := 400, body := .obj [("error", .str "Usuário já existe")] } : Response)
        ≠ { status := 500, body := .obj [("error", .str "Erro interno")] }) ∧
    (({ status := 400, body := .obj [("error", .str "Usuário já existe")] } : Response)
        ≠ { status := 400, body := .obj [("error", .str "Dados incompletos")] }) := by
  refine ⟨?_, ?_, ?_, ?_, ?_⟩
  · rintro hb (h | h | h) <;> simp [createUser, hb, h, Json.truthy, errorResponse, errorBody]
  · intro hash err s1 hu hp hr hh hq
    have hb := truthy_get_not_nullish _ _ hu
    constructor
    · intro hc
      simp [createUser, hb, hu, hp, hr, hh, hq, createUserCatch, hc, Json.strictEq,
        errorResponse, errorBody]
    · intro hc
      have : Json.strictEq err.code (.str "23505") = false := by
        rw [Bool.eq_false_iff]
        intro h
        exact hc ((strictEq_str_iff _ _).mp h)
      simp [createUser, hb, hu, hp, hr, hh, hq, createUserCatch, this, errorResponse,
        errorBody]
  · intro err hu hp hr hh hc
    have hb := truthy_get_not_nullish _ _ hu
    have : Json.strictEq err.code (.str "23505") = false := by
      rw [Bool.eq_false_iff]
      intro h
      exact hc ((strictEq_str_iff _ _).mp h)
    simp [createUser, hb, hu, hp, hr, hh, createUserCatch, this, errorResponse, errorBody]
  · simp
  · simp

/-- Witness of C8: against the store that holds `admin`, a body without role
is answered with the validation error and no call, and a second `admin` is
answered with the conflict error after the refused insert. -/
theorem createUser_failures_witness :
    createUser Sample.env Sample.adminStore
        (Sample.request none Sample.adminIdentity
          (.obj [("username", .str "bob"), ("password", .str "pw")]) "") =
      { store := Sample.adminStore, calls := [],
        response := some
          { status := 400, body := .obj [("error", .str "Dados incompletos")] } } ∧
    createUser Sample.env Sample.adminStore
        (Sample.request none Sample.adminIdentity
          (.obj [("username", .str "admin"), ("password", .str "pw"),
                 ("role", .str "gestor")]) "") =
      { store := Sample.adminStore,
        calls := [.hash (.str "pw") 10,
          .query .insertUserReturning [.str "admin", .str "$2b$10$pw", .str "gestor"]],
        response := some
          { status := 400, body := .obj [("error", .str "Usuário já existe")] } } :=
  ⟨(createUser_failures Sample.env Sample.adminStore
      (Sample.request none Sample.adminIdentity
        (.obj [("username", .str "bob"), ("password", .str "pw")]) "")).1
      rfl (Or.inr (Or.inr rfl)),
   ((createUser_failures Sample.env Sample.adminStore
      (Sample.request none Sample.adminIdentity
        (.obj [("username", .str "admin"), ("password", .str "pw"),
               ("role", .str "gestor")]) "")).2.1
      "$2b$10$pw" uniqueViolation Sample.adminStore rfl rfl rfl rfl rfl).1 rfl⟩

/-! ## Bootstrap -/

theorem count_is_zero_iff (k : Nat) :
    Json.strictEq
        (toNumber (Json.orElse ((Json.obj [("count", .str (Nat.repr k))]).get "count") (.num 0)))
        (.num 0) = decide (k = 0) := by
  have ht : (Json.str (Nat.repr k)).truthy = true := by
    simp [Json.truthy, repr_ne_empty]
  have hg : (Json.obj [("count", .str (Nat.repr k))]).get "count" = .str (Nat.repr k) := by
    simp [Json.get, List.lookup]
  rw [hg]
  simp only [Json.orElse, ht, if_true, toNumber, stringToNumber_repr_round]
  by_cases hk : k = 0
  · subst hk
    rfl
  · rw [roundDouble_ne_zero k hk]
    simp [hk]

/-- C7: over the credential store, with a hasher that returns `h` for the
fixed password `1234`: on a store without users `ensureAdminUser` counts,
hashes and inserts exactly one record, `admin` with role `admin` and hash `h`,
which leaves exactly one user; on a store with users it only counts and
leaves the store unchanged; and a second run leaves the store of the first. -/
theorem ensureAdminUser_bootstrap (env : Env Store) (store : Store) (h : String)
    (hq : env.query = pgQuery) (hh : env.bcryptHash (.str "1234") 10 = .ok h) :
    (store.users = [] →
      (ensureAdminUser env store).store =
        { users := [{ id := store.nextId, username := "admin", password_hash := h,
                      role := "admin" }],
          nextId := store.nextId + 1 } ∧
      (ensureAdminUser env store).calls =
        [.query .countUsers [], .hash (.str "1234") 10,
         .query .insertUser [.str "admin", .str h, .str "admin"]] ∧
      (ensureAdminUser env store).store.users.length = 1) ∧
    (store.users ≠ [] →
      (ensureAdminUser env store).store = store ∧
      (ensureAdminUser env store).calls = [.query .countUsers []]) ∧
    (ensureAdminUser env (ensureAdminUser env store).store).store
      = (ensureAdminUser env store).store := by
  have empty_case : ∀ st : Store, st.users = [] →
      ensureAdminUser env st =
        { store := { users := [{ id := st.nextId, username := "admin", password_hash := h,
                                 role := "admin" }],
                     nextId := st.nextId + 1 },
          calls := [.query .countUsers [], .hash (.str "1234") 10,
                    .query .insertUser [.str "admin", .str h, .str "admin"]] } := by
    intro st he
    have hc := count_is_zero_iff st.users.length
    simp only [he, List.length_nil, decide_True] at hc
    simp only [ensureAdminUser, hq, pgQuery, he, List.length_nil, hc, if_true, hh, Store.insert,
      List.any_nil, Bool.false_eq_true, if_false, List.nil_append]
  have full_case : ∀ st : Store, st.users ≠ [] →
      ensureAdminUser env st = { store := st, calls := [.query .countUsers []] } := by
    intro st hne
    have hc := count_is_zero_iff st.users.length
    have hl : st.users.length ≠ 0 := by
      simpa [List.length_eq_zero] using hne
    simp only [hl, decide_False] at hc
    simp only [ensureAdminUser, hq, pgQuery, hc, Bool.false_eq_true, if_false]
  refine ⟨?_, ?_, ?_⟩
  · intro he
    rw [empty_case store he]
    simp
  · intro hne
    rw [full_case store hne]
    simp
  · by_cases he : store.users = []
    · rw [empty_case store he]
      rw [full_case _ (by simp)]
    · rw [full_case store he, full_case store he]

/-- Witness of C7: the bootstrap of the empty store creates the administrator
with id 1. -/
theorem ensureAdminUser_bootstrap_witness :
    (ensureAdminUser Sample.env Sample.emptyStore).store = Sample.adminStore :=
  ((ensureAdminUser_bootstrap Sample.env Sample.emptyStore "$2b$10$1234" rfl rfl).1 rfl).1

/-! ## Token lifetime -/

theorem bearer_ne_empty (tok : String) : "Bearer " ++ tok ≠ "" := by
  intro h
  have := congrArg String.data h
  simp [String.data_append] at this

/-- C9: with the token service over a wire format that reads the issued token
back and writes it without space, a successful login at time `T` (a request
with a body, whose record is found and whose password verifies) answers with
a token that `authMiddleware`, under the same environment, accepts at every
time `t` with `T ≤ t < T + 8h`, attaching the identity and calling `next`, and
rejects at every time `t ≥ T + 8h`. -/
theorem token_expiry_window {σ : Type} (codec : TokenCodec) (env : Env σ) (store : σ)
    (req : Req) (s1 : σ) (rest : List Json) (n : Nat) (user : Json)
    (hasBody : req.body.isNullish = false)
    (found : env.query .selectByUsername [req.body.get "username"] store
      = (.ok { rowCount := n + 1, rows := user :: rest }, s1))
    (verified : env.bcryptCompare (req.body.get "password") (user.get "password_hash")
      = .ok true)
    (readsBack : codec.decode (codec.encode (loginClaims env user)) = some (loginClaims env user))
    (noSpace : ' ' ∉ (codec.encode (loginClaims env user)).data) :
    (login (withTokenService codec env) store req).response = some
      { status := 200,
        body := .obj [("token", .str (codec.encode (loginClaims env user))),
                      ("user", identityOf user)] } ∧
    ∀ (t : Nat) (gate : Req),
      gate.authorization = some ("Bearer " ++ codec.encode (loginClaims env user)) →
      (env.now ≤ t → t < env.now + 8 * 3600 →
        authMiddleware (atTime (withTokenService codec env) t) gate =
          { req := { gate with user := identityOf user }, response := none,
            nextCalls := 1 }) ∧
      (env.now + 8 * 3600 ≤ t →
        authMiddleware (atTime (withTokenService codec env) t) gate =
          { req := gate,
            response := some { status := 403, body := errorBody "Token inválido" },
            nextCalls := 0 }) := by
  have hspan : timespanSeconds "8h" = some (8 * 3600) := by decide
  refine ⟨?_, ?_⟩
  · have hs : jwtSecret (withTokenService codec env) = jwtSecret env := rfl
    simp only [login, hasBody, withTokenService, found, verified, TokenService.issue, hspan]
    rfl
  · intro t gate hg
    have hsec : jwtSecret (atTime (withTokenService codec env) t) = jwtSecret env := rfl
    have hnow : (atTime (withTokenService codec env) t).now = t := rfl
    have hver : (atTime (withTokenService codec env) t).jwtVerify = TokenService.verify codec :=
      rfl
    have ht := headerToken_bearer _ noSpace
    have hexp : (loginClaims env user).expiresAt = env.now + 8 * 3600 := rfl
    have hs : ((loginClaims env user).secret != jwtSecret env) = false := by
      simp [loginClaims]
    have hid : (loginClaims env user).identity = identityOf user := rfl
    constructor
    · intro _ hlt
      have hno : ¬ (env.now + 8 * 3600 ≤ t) := by omega
      have hv : TokenService.verify codec (.str (codec.encode (loginClaims env user)))
          (jwtSecret env) t = .ok (identityOf user) := by
        simp only [TokenService.verify, readsBack, hs, hexp, hno, hid, if_false,
          Bool.false_eq_true]
      simp only [authMiddleware, hg, bearer_ne_empty, ht, hsec, hnow, hver, hv, callNext,
        if_false]
    · intro hge
      have hv : TokenService.verify codec (.str (codec.encode (loginClaims env user)))
          (jwtSecret env) t = .error { message := "Expired", code := .undefined } := by
        simp only [TokenService.verify, readsBack, hs, hexp, hge, if_true, if_false,
          Bool.false_eq_true]
      simp only [authMiddleware, hg, bearer_ne_empty, ht, hsec, hnow, hver, hv, reject,
        if_false]

/-- Witness of C9: the administrator logs in at time 1000; the token passes the
gate at time 29799 and is refused at time 29800. -/
theorem token_expiry_window_witness :
    authMiddleware (atTime (withTokenService Sample.codec Sample.env) 29799)
        (Sample.request (some "Bearer header.payload.signature") .undefined .undefined "") =
      { req := Sample.request (some "Bearer header.payload.signature") Sample.adminIdentity
          .undefined "",
        response := none, nextCalls := 1 } ∧
    authMiddleware (atTime (withTokenService Sample.codec Sample.env) 29800)
        (Sample.request (some "Bearer header.payload.signature") .undefined .undefined "") =
      { req := Sample.request (some "Bearer header.payload.signature") .undefined .undefined "",
        response := some { status := 403, body := errorBody "Token inválido" },
        nextCalls := 0 } :=
  ⟨((token_expiry_window Sample.codec Sample.env Sample.adminStore
      (Sample.request none .undefined
        (.obj [("username", .str "admin"), ("password", .str "1234")]) "")
      Sample.adminStore [] 0 Sample.admin.toRow rfl rfl rfl rfl (by decide)).2 29799
      (Sample.request (some "Bearer header.payload.signature") .undefined .undefined "")
      rfl).1 (by decide) (by decide),
   ((token_expiry_window Sample.codec Sample.env Sample.adminStore
      (Sample.request none .undefined
        (.obj [("username", .str "admin"), ("password", .str "1234")]) "")
      Sample.adminStore [] 0 Sample.admin.toRow rfl rfl rfl rfl (by decide)).2 29800
      (Sample.request (some "Bearer header.payload.signature") .undefined .undefined "")
      rfl).2 (by decide)⟩

end Custos
